import Mathlib

/-!
Verification development for the Buffett-style stock evaluator.

Shallow embedding of the Python sources:
  * `src/buffett_eval/metrics.py`  — scorecard engine (MetricResult, the five
    rule checks, aggregate_score);
  * `src/parquet_store.py`         — per-ticker on-disk cache (load/upsert);
  * `src/data_providers.py`        — `_get_json` retry loop;
  * `src/streamlit_app.py`         — `fundamentals_for_ticker` resolver.

Nullable float columns are modelled as `Option ℚ` (exact arithmetic stands in
for IEEE doubles); real-valued results (the fractional-power CAGR) live in `ℝ`.
A pandas DataFrame of fundamentals is a `List FundRow`; `sort_values('year')`
is insertion sort on the year key and `tail(5)` drops all but the last five
rows.  The filesystem behind the parquet store is a map from sanitized file
keys to a `FileState` (absent, unreadable, or a readable table).
-/

/-- One row of annual fundamentals (schema of `parquet_store.required`). -/
structure FundRow where
  ticker : String := ""
  year : Int := 0
  revenue : Option ℚ := none
  net_income : Option ℚ := none
  shareholders_equity : Option ℚ := none
  total_debt : Option ℚ := none
  shares_outstanding : Option ℚ := none
  free_cash_flow : Option ℚ := none
  current_assets : Option ℚ := none
  total_liabilities : Option ℚ := none
  company : String := ""
deriving DecidableEq, Repr

/-- Ascending-year comparison used by `sort_values('year')`. -/
def yearLE (a b : FundRow) : Prop := a.year ≤ b.year

instance : DecidableRel yearLE := fun a b => Int.decLe a.year b.year

instance : IsTotal FundRow yearLE := ⟨fun a b => Int.le_total a.year b.year⟩

instance : IsTrans FundRow yearLE := ⟨fun _ _ _ h h2 => Int.le_trans h h2⟩

/-- `df.sort_values('year')`: stable sort of the rows by ascending year. -/
def sortByYear (df : List FundRow) : List FundRow :=
  List.insertionSort yearLE df

/-- `df.tail(5)`: the last five rows (all rows when fewer than five). -/
def tail5 {α : Type} (l : List α) : List α :=
  l.drop (l.length - 5)

/-- The five-year trailing window used by every rule:
`df.sort_values('year').tail(5)`. -/
def window5 (df : List FundRow) : List FundRow :=
  tail5 (sortByYear df)

-- ===== parquet_store.py =====

/-- State of one per-ticker cache file: missing, present but unreadable
(`pd.read_parquet` raises; `lost` records the rows the corrupt bytes once
encoded), or a readable table of rows. -/
inductive FileState where
  | absent : FileState
  | corrupt (lost : List FundRow) : FileState
  | table (rows : List FundRow) : FileState
deriving DecidableEq, Repr

/-- The cache directory: sanitized file key ↦ file state. -/
def Store : Type := String → FileState

/-- The empty cache directory. -/
def emptyStore : Store := fun _ => FileState.absent

/-- Write one file. -/
def Store.write (s : Store) (k : String) (v : FileState) : Store :=
  fun k2 => if k2 = k then v else s k2

/-- Python `str.upper()`: uppercase each character.  (Modelled on the
character sequence; `String.toUpper` itself is definitionally opaque.) -/
def strUpper (s : String) : String := String.mk (s.data.map Char.toUpper)

/-- `SAFE = re.compile(r"[^A-Z0-9._-]")`: characters kept by the sanitizer. -/
def safeChar (c : Char) : Bool :=
  (decide ('A' ≤ c) && decide (c ≤ 'Z')) ||
  (decide ('0' ≤ c) && decide (c ≤ '9')) ||
  (c = '.' : Bool) || (c = '_' : Bool) || (c = '-' : Bool)

/-- `_file_for(ticker)`: uppercase, then replace every unsafe character with
an underscore.  (The directory prefix and `.parquet` suffix are a constant
decoration and are dropped from the model.) -/
def file_for (ticker : String) : String :=
  String.mk ((strUpper ticker).data.map (fun c => if safeChar c then c else '_'))

/-- `pd.read_parquet` inside `upsert_fundamentals`'s try/except: a corrupt
file reads as an empty frame, a missing file as empty too (the code only
calls this behind an existence check). -/
def readOld : FileState → List FundRow
  | FileState.absent => []
  | FileState.corrupt _ => []
  | FileState.table rows => rows

/-- `load_fundamentals(ticker)`: empty series when the file is missing or
unreadable (the exception is swallowed), else the stored rows. -/
def load_fundamentals (s : Store) (ticker : String) : List FundRow :=
  match s (file_for ticker) with
  | FileState.absent => []
  | FileState.corrupt _ => []
  | FileState.table rows => rows

/-- Merge step of `upsert_fundamentals` for one ticker's chunk: if the file
exists and holds rows, drop the stored rows whose year occurs in the incoming
chunk and append the chunk; a missing or unreadable (or empty) file is
treated as no prior rows. -/
def mergeChunk (fs : FileState) (chunk : List FundRow) : List FundRow :=
  match fs with
  | FileState.absent => chunk
  | FileState.corrupt _ => chunk
  | FileState.table old =>
    if old = [] then chunk
    else old.filter (fun r => ¬ r.year ∈ chunk.map FundRow.year) ++ chunk

/-- Distinct ticker keys of the batch in first-occurrence order (pandas
`groupby` sorts keys, which coincides with this for the single-ticker batches
the claims quantify over). -/
def groupKeys (rows : List FundRow) : List String :=
  (rows.map FundRow.ticker).dedup

/-- `upsert_fundamentals(df)`: no-op on an empty batch; otherwise uppercase
every ticker (the fixed schema already carries all required columns), group
by ticker, and rewrite each ticker's file with the year-merged, year-sorted
result. -/
def upsert_fundamentals (df : List FundRow) (s : Store) : Store :=
  if df = [] then s
  else
    let out := df.map (fun r => { r with ticker := strUpper r.ticker })
    (groupKeys out).foldl
      (fun st tkr =>
        let chunk := out.filter (fun r => r.ticker = tkr)
        st.write (file_for tkr)
          (FileState.table (sortByYear (mergeChunk (st (file_for tkr)) chunk))))
      s

-- ===== buffett_eval/metrics.py =====

/-- `MetricResult`: one rule's outcome.  `value` is the nullable numeric
(ratio, CAGR or pass-fraction); `pass_flag` is true/false/unknown. -/
structure MetricResult where
  name : String
  value : Option ℝ
  pass_flag : Option Bool
  details : String

/-- `de_latest(df)`: latest-year Debt/Equity, pass iff ratio < 0.50.
Returns `none` exactly when `iloc[-1]` raises, i.e. on an empty frame.
The numeric formatting inside the computed-branch `details` string is
presentation-only and elided. -/
noncomputable def de_latest (df : List FundRow) : Option MetricResult :=
  let df2 := sortByYear df
  match df2.getLast? with
  | none => none
  | some lastRow =>
    let ratio : Option ℚ :=
      match lastRow.shareholders_equity, lastRow.total_debt with
      | some eq, some debt => if eq ≠ 0 then some (debt / eq) else none
      | _, _ => none
    some { name := "Debt-to-Equity < 50% (latest)",
           value := ratio.map (fun q => (q : ℝ)),
           pass_flag := some (match ratio with
             | some q => decide (q < 1/2)
             | none => false),
           details := match ratio with
             | some _ => "D/E value"
             | none => "n/a" }

/-- `equity_growth_5y(df)`: CAGR of shareholders_equity over the trailing
window; pass iff CAGR > 0; unknown when the window has fewer than 2 rows or
an endpoint is null or ≤ 0. -/
noncomputable def equity_growth_5y (df : List FundRow) : MetricResult :=
  let df2 := window5 df
  if df2.length < 2 then
    { name := "Equity growing (5y)", value := none, pass_flag := none,
      details := "insufficient data" }
  else
    match df2.head?.bind FundRow.shareholders_equity,
          df2.getLast?.bind FundRow.shareholders_equity with
    | some first, some last =>
      if first ≤ 0 ∨ last ≤ 0 then
        { name := "Equity growing (5y)", value := none, pass_flag := none,
          details := "insufficient data" }
      else
        let cg : ℝ :=
          ((last : ℝ) / (first : ℝ)) ^ ((1 : ℝ) / ((df2.length : ℝ) - 1)) - 1
        { name := "Equity growing (5y)", value := some cg,
          pass_flag := some (decide (0 < cg)), details := "CAGR value" }
    | _, _ =>
      { name := "Equity growing (5y)", value := none, pass_flag := none,
        details := "insufficient data" }

/-- `profit_growth_5y(df)`: same CAGR rule on net_income. -/
noncomputable def profit_growth_5y (df : List FundRow) : MetricResult :=
  let df2 := window5 df
  if df2.length < 2 then
    { name := "Profit growing (5y)", value := none, pass_flag := none,
      details := "insufficient data" }
  else
    match df2.head?.bind FundRow.net_income,
          df2.getLast?.bind FundRow.net_income with
    | some first, some last =>
      if first ≤ 0 ∨ last ≤ 0 then
        { name := "Profit growing (5y)", value := none, pass_flag := none,
          details := "insufficient data" }
      else
        let cg : ℝ :=
          ((last : ℝ) / (first : ℝ)) ^ ((1 : ℝ) / ((df2.length : ℝ) - 1)) - 1
        { name := "Profit growing (5y)", value := some cg,
          pass_flag := some (decide (0 < cg)), details := "CAGR value" }
    | _, _ =>
      { name := "Profit growing (5y)", value := none, pass_flag := none,
        details := "insufficient data" }

/-- `roe_full.dropna()`: per-year ROE over the window, with years whose
equity is zero or either operand null excluded (`replace(0, NA)` plus the
null-propagation of pandas division). -/
def roeSeries (w : List FundRow) : List ℚ :=
  w.filterMap (fun r =>
    match r.net_income, r.shareholders_equity with
    | some ni, some eq => if eq = 0 then none else some (ni / eq)
    | _, _ => none)

/-- `roe_consistent_5y(df, min_target)`: pass iff at least 80% of the
non-excluded window years have ROE ≥ min_target; unknown when every year is
excluded. -/
noncomputable def roe_consistent_5y (df : List FundRow) (min_target : ℚ) :
    MetricResult :=
  let df2 := window5 df
  let roe := roeSeries df2
  if roe = [] then
    { name := "ROE ≥ 15% (5y)", value := none, pass_flag := none,
      details := "no data" }
  else
    let pass_ratio : ℚ :=
      ((roe.filter (fun v => min_target ≤ v)).length : ℚ) / (roe.length : ℚ)
    { name := "ROE ≥ 15% (5y)", value := some ((pass_ratio : ℝ)),
      pass_flag := some (decide ((80 : ℚ)/100 ≤ pass_ratio)),
      details := "per-year ROE values" }

/-- `(df2['free_cash_flow'] > 0)` for one row: pandas compares a null as
not-greater-than-zero, so a null year contributes `false`. -/
def fcfPos (r : FundRow) : Bool :=
  match r.free_cash_flow with
  | some v => decide (0 < v)
  | none => false

/-- `fcf_positive_5y(df)`: fraction of window years with strictly positive
free cash flow (nulls count in the denominator); pass iff the fraction is
exactly 1; an empty window yields ratio 0.0 and a false (not unknown) flag. -/
noncomputable def fcf_positive_5y (df : List FundRow) : MetricResult :=
  let df2 := window5 df
  let pos_ratio : ℚ :=
    if 0 < df2.length then ((df2.filter fcfPos).length : ℚ) / (df2.length : ℚ)
    else 0
  { name := "FCF positive (5y)", value := some ((pos_ratio : ℝ)),
    pass_flag := some (decide (pos_ratio = 1)),
    details := "positive-year share" }

/-- `scorecard(df)`: the five rules in fixed order (`none` when `de_latest`
raises on an empty frame). -/
noncomputable def scorecard (df : List FundRow) : Option (List MetricResult) :=
  (de_latest df).map (fun de =>
    [equity_growth_5y df, de, profit_growth_5y df,
     roe_consistent_5y df (15/100), fcf_positive_5y df])

/-- `aggregate_score(results)`: mean of determinate pass flags (a Python bool
sums as 0/1), `none` when no flag is determinate. -/
noncomputable def aggregate_score (results : List MetricResult) : Option ℝ :=
  let flags := results.filterMap MetricResult.pass_flag
  if flags = [] then none
  else some ((flags.map (fun b => if b then (1 : ℝ) else 0)).sum /
             (flags.length : ℝ))

-- ===== data_providers.py : _get_json =====

/-- The retry loop of `_get_json`, one step per attempt.  `results i` is the
outcome of the i-th GET (transport errors and non-2xx responses both raise,
i.e. are `Except.error`); `fuel` is the number of retries still allowed
(`retries - i` in the Python loop).  Returns the final outcome, the list of
back-off sleeps performed (`backoff * 2 ** i` before each retry), and the
number of attempts made. -/
def tryAttempts {E J : Type} (results : Nat → Except E J) (backoff : ℚ) :
    Nat → Nat → Except E J × List ℚ × Nat
  | i, 0 =>
    match results i with
    | Except.ok j => (Except.ok j, [], 1)
    | Except.error e => (Except.error e, [], 1)
  | i, fuel + 1 =>
    match results i with
    | Except.ok j => (Except.ok j, [], 1)
    | Except.error _ =>
      let rest := tryAttempts results backoff (i + 1) fuel
      (rest.1, backoff * 2 ^ i :: rest.2.1, rest.2.2 + 1)

/-- `_get_json(url, retries, backoff)`: run the loop from attempt 0 with the
full retry budget. -/
def get_json {E J : Type} (results : Nat → Except E J) (retries : Nat)
    (backoff : ℚ) : Except E J × List ℚ × Nat :=
  tryAttempts results backoff 0 retries

/-- `_get_json` at its default arguments: retries=2, backoff=0.6. -/
def getJsonDefault {E J : Type} (results : Nat → Except E J) :
    Except E J × List ℚ × Nat :=
  get_json results 2 (3/5)

-- ===== streamlit_app.py : fundamentals_for_ticker =====

/-- `rows[rows["ticker"].str.upper() == t]`. -/
def tickerRows (t : String) (rows : List FundRow) : List FundRow :=
  rows.filter (fun r => strUpper r.ticker = t)

/-- `fundamentals_for_ticker(ticker, uploaded_df)`: uploaded slice first,
then the bundled sample CSV's slice, then the remote provider's result
(`remote`, already an `Option` since `get_fmp_fundamentals` may return None).
The function performs no cache operation — neither `load_fundamentals` nor
`upsert_fundamentals` is called anywhere in `streamlit_app.py` — so the
`Store` argument is threaded through unchanged to make that observable. -/
def fundamentals_for_ticker (ticker : String) (uploaded : Option (List FundRow))
    (sample : List FundRow) (remote : Option (List FundRow)) (s : Store) :
    Option (List FundRow) × Store :=
  let t := strUpper ticker
  let fromUpload : Option (List FundRow) :=
    match uploaded with
    | some up =>
      let f := sortByYear (tickerRows t up)
      if f = [] then none else some f
    | none => none
  match fromUpload with
  | some f => (some f, s)
  | none =>
    let f2 := sortByYear (tickerRows t sample)
    if f2 = [] then (remote, s) else (some f2, s)

/-- A MetricResult whose only populated field is the pass flag, used to build
concrete aggregate inputs. -/
def mkFlag (b : Option Bool) : MetricResult :=
  { name := "", value := none, pass_flag := b, details := "" }


/-- Concrete row with positive FCF and a computable ROE, for witnesses. -/
def rowFCFROE : FundRow :=
  { ticker := "X", year := 1, net_income := some 3,
    shareholders_equity := some 10, free_cash_flow := some 2 }

/-- Concrete row whose free_cash_flow is null, for witnesses. -/
def rowNullFCF : FundRow := { ticker := "X", year := 1 }

/-- Concrete latest-year row with null equity and non-null debt. -/
def rowNullEquity : FundRow := { ticker := "T", year := 2023, total_debt := some 10 }

/-- Two-row series with null equity and null net income, for witnesses. -/
def dfTwoNulls : List FundRow := [{ year := 1 }, { year := 2 }]

/-- Two-row series with positive, growing equity and income, for witnesses. -/
def dfGrow : List FundRow :=
  [{ year := 1, shareholders_equity := some 100, net_income := some 10 },
   { year := 2, shareholders_equity := some 180, net_income := some 20 }]

/-- The spec's example five-year equity series (100 → 180), for witnesses. -/
def dfFive : List FundRow :=
  [{ year := 2019, shareholders_equity := some 100 },
   { year := 2020, shareholders_equity := some 110 },
   { year := 2021, shareholders_equity := some 130 },
   { year := 2022, shareholders_equity := some 150 },
   { year := 2023, shareholders_equity := some 180 }]

/-- Concrete single-ticker batch row, for store witnesses. -/
def rowACME : FundRow := { ticker := "ACME", year := 2023, revenue := some 5 }

/-- A stale row standing for content of a corrupt cache file. -/
def rowOld : FundRow := { ticker := "ACME", year := 1999 }

/-- A store whose every file is corrupt, remembering `rowOld`. -/
def corruptStore : Store := fun _ => FileState.corrupt [rowOld]

/-- Concrete outcome oracle: attempt 0 fails, every later attempt succeeds. -/
def resultsW : Nat → Except Unit Nat :=
  fun k => if k = 0 then Except.error () else Except.ok 7

-- ===== general lemmas =====

/-- Summing the 0/1 indicator of a boolean list counts its `true`s. -/
lemma sum_indicator_eq_count (flags : List Bool) :
    (flags.map (fun b => if b then (1 : ℝ) else 0)).sum = (flags.count true : ℝ) := by
  induction flags with
  | nil => simp
  | cons b t ih =>
    cases b
    · simp [List.count_cons, ih]
    · simp [List.count_cons, ih]
      ring

/-- `load_fundamentals` and the `read_parquet` try/except read the same rows
from any file state. -/
lemma load_eq_readOld (s : Store) (t : String) :
    load_fundamentals s t = readOld (s (file_for t)) := by
  unfold load_fundamentals readOld
  cases s (file_for t) <;> rfl

-- ===== C3 =====

/-- C3: the aggregate score is the count of true flags divided by the count of
determinate (non-null) flags, results with a null flag being excluded from
numerator and denominator alike; it is null exactly when every flag is null;
and on flags [true, false, unknown, true, true] it is 3/4 = 0.75. -/
theorem aggregate_score_spec (results : List MetricResult) :
    (aggregate_score results = none ↔ ∀ r ∈ results, r.pass_flag = none) ∧
    (results.filterMap MetricResult.pass_flag ≠ [] →
      aggregate_score results =
        some (((results.filterMap MetricResult.pass_flag).count true : ℝ) /
              ((results.filterMap MetricResult.pass_flag).length : ℝ))) ∧
    aggregate_score
        [mkFlag (some true), mkFlag (some false), mkFlag none,
         mkFlag (some true), mkFlag (some true)] = some ((3 : ℝ)/4) := by
  refine ⟨?_, ?_, ?_⟩
  · unfold aggregate_score
    by_cases h : results.filterMap MetricResult.pass_flag = []
    · simp only [h, if_pos rfl]
      constructor
      · intro _
        exact fun r hr => (List.filterMap_eq_nil_iff.mp h) r hr
      · intro _; rfl
    · simp only [if_neg h]
      constructor
      · intro hc; exact absurd hc (by simp)
      · intro hall
        exact absurd (List.filterMap_eq_nil_iff.mpr hall) h
  · intro h
    unfold aggregate_score
    simp only [if_neg h]
    rw [sum_indicator_eq_count]
  · unfold aggregate_score
    norm_num [mkFlag, List.filterMap, List.count]
    intro h
    exact absurd h (by simp)

/-- Witness for C3 at a concrete list with a determinate flag. -/
theorem aggregate_score_spec_witness :
    ([mkFlag (some true), mkFlag (some false)].filterMap MetricResult.pass_flag ≠ []) ∧
    aggregate_score [mkFlag (some true), mkFlag (some false)] =
      some ((([mkFlag (some true), mkFlag (some false)].filterMap
                MetricResult.pass_flag).count true : ℝ) /
            (([mkFlag (some true), mkFlag (some false)].filterMap
                MetricResult.pass_flag).length : ℝ)) :=
  ⟨by simp [mkFlag], (aggregate_score_spec _).2.1 (by simp [mkFlag])⟩

-- ===== C4 / C9 : FCF positivity =====

/-- The pandas boolean `row.free_cash_flow > 0` holds exactly when the field
is non-null and strictly positive. -/
lemma fcfPos_iff (r : FundRow) :
    fcfPos r = true ↔ ∃ v, r.free_cash_flow = some v ∧ 0 < v := by
  unfold fcfPos
  cases h : r.free_cash_flow with
  | none => simp
  | some v => simp

/-- C4: when every free_cash_flow in the (non-empty) trailing window is
strictly positive the FCF check passes with value 1.0; when any window year
is null or ≤ 0 it fails; and an empty window yields value 0.0 with a false
(not unknown) flag. -/
theorem fcf_positive_5y_spec (df : List FundRow) :
    (window5 df ≠ [] →
      (∀ r ∈ window5 df, ∃ v, r.free_cash_flow = some v ∧ 0 < v) →
      (fcf_positive_5y df).pass_flag = some true ∧
      (fcf_positive_5y df).value = some 1) ∧
    ((∃ r ∈ window5 df,
        r.free_cash_flow = none ∨ ∃ v, r.free_cash_flow = some v ∧ v ≤ 0) →
      (fcf_positive_5y df).pass_flag = some false) ∧
    (window5 df = [] →
      (fcf_positive_5y df).value = some 0 ∧
      (fcf_positive_5y df).pass_flag = some false) := by
  refine ⟨?_, ?_, ?_⟩
  · intro hne hall
    have hlen : 0 < (window5 df).length := List.length_pos.mpr hne
    have hfilter : (window5 df).filter fcfPos = window5 df :=
      List.filter_eq_self.mpr (fun r hr => (fcfPos_iff r).mpr (hall r hr))
    have hratio :
        (((window5 df).filter fcfPos).length : ℚ) / ((window5 df).length : ℚ)
          = 1 := by
      rw [hfilter]
      exact div_self (by exact_mod_cast hlen.ne')
    unfold fcf_positive_5y
    simp only [if_pos hlen, hratio]
    norm_num
  · rintro ⟨r, hr, hbad⟩
    have hrneg : ¬ (fcfPos r = true) := by
      rw [fcfPos_iff]
      rintro ⟨v, hv, hvpos⟩
      rcases hbad with h | ⟨w, hw, hwle⟩
      · rw [h] at hv; cases hv
      · rw [hw] at hv
        cases hv
        exact absurd hvpos (not_lt.mpr hwle)
    have hlen : 0 < (window5 df).length :=
      List.length_pos.mpr (fun h => by rw [h] at hr; cases hr)
    have hlt : ((window5 df).filter fcfPos).length < (window5 df).length := by
      refine lt_of_le_of_ne (List.length_filter_le _ _) ?_
      intro heq
      have : (window5 df).filter fcfPos = window5 df :=
        (List.Sublist.eq_of_length (List.filter_sublist _) heq)
      have := List.filter_eq_self.mp this r hr
      exact hrneg this
    have hratio :
        (((window5 df).filter fcfPos).length : ℚ) / ((window5 df).length : ℚ)
          < 1 := by
      rw [div_lt_one (by exact_mod_cast hlen)]
      exact_mod_cast hlt
    unfold fcf_positive_5y
    simp only [if_pos hlen]
    simp [hratio.ne]
  · intro hemp
    unfold fcf_positive_5y
    rw [hemp]
    norm_num

/-- Witness for C4: an all-positive window passes, a window with one
non-positive year fails, and the empty window yields 0.0/false. -/
theorem fcf_positive_5y_spec_witness :
    (window5 [{ year := 1, free_cash_flow := some 3 }] ≠ [] ∧
     (∀ r ∈ window5 [{ year := 1, free_cash_flow := some 3 : FundRow }],
        ∃ v, r.free_cash_flow = some v ∧ 0 < v) ∧
     (fcf_positive_5y [{ year := 1, free_cash_flow := some 3 }]).pass_flag
        = some true) ∧
    ((∃ r ∈ window5 [{ year := 1, free_cash_flow := some (-2) : FundRow }],
        r.free_cash_flow = none ∨ ∃ v, r.free_cash_flow = some v ∧ v ≤ 0) ∧
     (fcf_positive_5y [{ year := 1, free_cash_flow := some (-2) }]).pass_flag
        = some false) ∧
    (window5 ([] : List FundRow) = [] ∧
     (fcf_positive_5y []).value = some 0) :=
  ⟨⟨by decide, by decide,
    ((fcf_positive_5y_spec _).1 (by decide) (by decide)).1⟩,
   ⟨⟨{ year := 1, free_cash_flow := some (-2) }, by decide, Or.inr ⟨-2, rfl, by norm_num⟩⟩,
    (fcf_positive_5y_spec _).2.1
      ⟨{ year := 1, free_cash_flow := some (-2) }, by decide,
       Or.inr ⟨-2, rfl, by norm_num⟩⟩⟩,
   ⟨rfl, ((fcf_positive_5y_spec ([] : List FundRow)).2.2 rfl).1⟩⟩

-- ===== C9 : null handling of the FCF rule vs the ROE rule =====

/-- C9: for a non-empty window the FCF value divides the count of strictly
positive years by the full window length, nulls included in the denominator;
one null year forces a value < 1 and a false flag; the ROE rule instead
divides by the count of non-excluded (non-null) years only. -/
theorem fcf_null_counts_in_denominator (df : List FundRow) :
    (window5 df ≠ [] →
      (fcf_positive_5y df).value =
        some ((((window5 df).filter fcfPos).length : ℝ) /
              ((window5 df).length : ℝ))) ∧
    (window5 df ≠ [] → (∃ r ∈ window5 df, r.free_cash_flow = none) →
      (∃ q : ℚ, (fcf_positive_5y df).value = some ((q : ℝ)) ∧ q < 1) ∧
      (fcf_positive_5y df).pass_flag = some false) ∧
    (roeSeries (window5 df) ≠ [] →
      (roe_consistent_5y df (15/100)).value =
        some ((((roeSeries (window5 df)).filter
                  (fun v => (15 : ℚ)/100 ≤ v)).length : ℝ) /
              ((roeSeries (window5 df)).length : ℝ))) := by
  refine ⟨?_, ?_, ?_⟩
  · intro hne
    have hlen : 0 < (window5 df).length := List.length_pos.mpr hne
    unfold fcf_positive_5y
    simp only [if_pos hlen]
    push_cast
    rfl
  · intro hne hnull
    obtain ⟨r, hr, hrnull⟩ := hnull
    have hlen : 0 < (window5 df).length := List.length_pos.mpr hne
    have hrneg : ¬ (fcfPos r = true) := by
      rw [fcfPos_iff]
      rintro ⟨v, hv, _⟩
      rw [hrnull] at hv
      cases hv
    have hlt : ((window5 df).filter fcfPos).length < (window5 df).length := by
      refine lt_of_le_of_ne (List.length_filter_le _ _) ?_
      intro heq
      exact hrneg
        (List.filter_eq_self.mp
          (List.Sublist.eq_of_length (List.filter_sublist _) heq) r hr)
    have hratio :
        (((window5 df).filter fcfPos).length : ℚ) / ((window5 df).length : ℚ)
          < 1 := by
      rw [div_lt_one (by exact_mod_cast hlen)]
      exact_mod_cast hlt
    constructor
    · refine ⟨(((window5 df).filter fcfPos).length : ℚ) /
              ((window5 df).length : ℚ), ?_, hratio⟩
      unfold fcf_positive_5y
      simp only [if_pos hlen]
    · unfold fcf_positive_5y
      simp only [if_pos hlen]
      simp [hratio.ne]
  · intro hne
    unfold roe_consistent_5y
    simp only [if_neg hne]
    push_cast
    rfl

/-- Witness for C9 at one-row windows: a positive-FCF row, a null-FCF row,
and the ROE value of a row with equity 10 and income 3. -/
theorem fcf_null_counts_in_denominator_witness :
    (window5 [rowFCFROE] ≠ [] ∧
     (fcf_positive_5y [rowFCFROE]).value =
        some ((((window5 [rowFCFROE]).filter fcfPos).length : ℝ) /
              ((window5 [rowFCFROE]).length : ℝ))) ∧
    (window5 [rowNullFCF] ≠ [] ∧
     (∃ r ∈ window5 [rowNullFCF], r.free_cash_flow = none) ∧
     (fcf_positive_5y [rowNullFCF]).pass_flag = some false) ∧
    (roeSeries (window5 [rowFCFROE]) ≠ [] ∧
     (roe_consistent_5y [rowFCFROE] (15/100)).value =
        some ((((roeSeries (window5 [rowFCFROE])).filter
                  (fun v => (15 : ℚ)/100 ≤ v)).length : ℝ) /
              ((roeSeries (window5 [rowFCFROE])).length : ℝ))) :=
  ⟨⟨by decide, (fcf_null_counts_in_denominator [rowFCFROE]).1 (by decide)⟩,
   ⟨by decide, by decide,
    ((fcf_null_counts_in_denominator [rowNullFCF]).2.1 (by decide)
        (by decide)).2⟩,
   ⟨by decide, (fcf_null_counts_in_denominator [rowFCFROE]).2.2 (by decide)⟩⟩

-- ===== C1 : de_latest on null/zero inputs =====

/-- C1 counterexample: on a series whose only (hence latest) row has a null
shareholders_equity and a non-null total_debt, `de_latest` returns
`pass_flag = some false`, not the unknown (`none`) flag the claim states. -/
theorem de_latest_unknown_flag_cex :
    (de_latest [rowNullEquity]).map MetricResult.pass_flag = some (some false) ∧
    some (some false) ≠ some (none : Option Bool) := by
  constructor
  · rfl
  · simp

/-- C1 (amended): whenever the latest-year row (after ascending sort) has a
null or zero shareholders_equity or a null total_debt, `de_latest` does not
raise and returns value = none with `pass_flag = some false` — a determinate
false, not the unknown flag — and details "n/a". -/
theorem de_latest_null_inputs (df : List FundRow) (lastRow : FundRow)
    (hl : (sortByYear df).getLast? = some lastRow)
    (hbad : lastRow.shareholders_equity = none ∨
            lastRow.shareholders_equity = some 0 ∨
            lastRow.total_debt = none) :
    de_latest df =
      some { name := "Debt-to-Equity < 50% (latest)", value := none,
             pass_flag := some false, details := "n/a" } := by
  simp only [de_latest]
  rw [hl]
  rcases hbad with h | h | h
  · simp [h]
  · rcases hd : lastRow.total_debt with _ | d
    · simp [h, hd]
    · simp [h, hd]
  · rcases he : lastRow.shareholders_equity with _ | e
    · simp [h, he]
    · simp [h, he]

/-- Witness for C1 (amended) at the concrete null-equity row. -/
theorem de_latest_null_inputs_witness :
    (sortByYear [rowNullEquity]).getLast? = some rowNullEquity ∧
    (rowNullEquity.shareholders_equity = none ∨
     rowNullEquity.shareholders_equity = some 0 ∨
     rowNullEquity.total_debt = none) ∧
    de_latest [rowNullEquity] =
      some { name := "Debt-to-Equity < 50% (latest)", value := none,
             pass_flag := some false, details := "n/a" } :=
  ⟨by decide, Or.inl rfl,
   de_latest_null_inputs [rowNullEquity] rowNullEquity (by decide) (Or.inl rfl)⟩

-- ===== C6 : growth checks degrade to unknown =====

/-- C6: a trailing window with fewer than 2 rows, or a null or non-positive
window endpoint of the relevant column, makes the equity- and profit-growth
checks return value = none and pass_flag = none; and whenever the CAGR power
is evaluated, both endpoints are strictly positive, so its base l/f is
strictly positive. -/
theorem growth_checks_insufficient_data (df : List FundRow) :
    ((window5 df).length < 2 →
      (equity_growth_5y df).value = none ∧
      (equity_growth_5y df).pass_flag = none ∧
      (profit_growth_5y df).value = none ∧
      (profit_growth_5y df).pass_flag = none) ∧
    (((window5 df).head?.bind FundRow.shareholders_equity = none ∨
      (window5 df).getLast?.bind FundRow.shareholders_equity = none ∨
      (∃ f, (window5 df).head?.bind FundRow.shareholders_equity = some f ∧
            f ≤ 0) ∨
      (∃ l, (window5 df).getLast?.bind FundRow.shareholders_equity = some l ∧
            l ≤ 0)) →
      (equity_growth_5y df).value = none ∧
      (equity_growth_5y df).pass_flag = none) ∧
    (((window5 df).head?.bind FundRow.net_income = none ∨
      (window5 df).getLast?.bind FundRow.net_income = none ∨
      (∃ f, (window5 df).head?.bind FundRow.net_income = some f ∧ f ≤ 0) ∨
      (∃ l, (window5 df).getLast?.bind FundRow.net_income = some l ∧ l ≤ 0)) →
      (profit_growth_5y df).value = none ∧
      (profit_growth_5y df).pass_flag = none) ∧
    (∀ f l : ℚ,
      (window5 df).head?.bind FundRow.shareholders_equity = some f →
      (window5 df).getLast?.bind FundRow.shareholders_equity = some l →
      ¬ (window5 df).length < 2 → ¬ f ≤ 0 → ¬ l ≤ 0 →
      0 < (l : ℝ) / (f : ℝ) ∧
      (equity_growth_5y df).value =
        some (((l : ℝ) / (f : ℝ)) ^
                ((1 : ℝ) / (((window5 df).length : ℝ) - 1)) - 1)) ∧
    (∀ f l : ℚ,
      (window5 df).head?.bind FundRow.net_income = some f →
      (window5 df).getLast?.bind FundRow.net_income = some l →
      ¬ (window5 df).length < 2 → ¬ f ≤ 0 → ¬ l ≤ 0 →
      0 < (l : ℝ) / (f : ℝ) ∧
      (profit_growth_5y df).value =
        some (((l : ℝ) / (f : ℝ)) ^
                ((1 : ℝ) / (((window5 df).length : ℝ) - 1)) - 1)) := by
  refine ⟨?_, ?_, ?_, ?_, ?_⟩
  · intro hlen
    unfold equity_growth_5y profit_growth_5y
    simp [if_pos hlen]
  · intro hbad
    simp only [equity_growth_5y]
    by_cases hlen : (window5 df).length < 2
    · simp [if_pos hlen]
    · simp only [if_neg hlen]
      rcases hbad with h | h | ⟨f, hf, hf0⟩ | ⟨l, hl, hl0⟩
      · rcases h2 : (window5 df).getLast?.bind FundRow.shareholders_equity
          with _ | l
        · simp [h, h2]
        · simp [h, h2]
      · rcases h1 : (window5 df).head?.bind FundRow.shareholders_equity
          with _ | f
        · simp [h, h1]
        · simp [h, h1]
      · rcases h2 : (window5 df).getLast?.bind FundRow.shareholders_equity
          with _ | l
        · simp [hf, h2]
        · simp [hf, h2, if_pos (Or.inl hf0)]
      · rcases h1 : (window5 df).head?.bind FundRow.shareholders_equity
          with _ | f
        · simp [hl, h1]
        · simp [hl, h1, if_pos (Or.inr hl0)]
  · intro hbad
    simp only [profit_growth_5y]
    by_cases hlen : (window5 df).length < 2
    · simp [if_pos hlen]
    · simp only [if_neg hlen]
      rcases hbad with h | h | ⟨f, hf, hf0⟩ | ⟨l, hl, hl0⟩
      · rcases h2 : (window5 df).getLast?.bind FundRow.net_income with _ | l
        · simp [h, h2]
        · simp [h, h2]
      · rcases h1 : (window5 df).head?.bind FundRow.net_income with _ | f
        · simp [h, h1]
        · simp [h, h1]
      · rcases h2 : (window5 df).getLast?.bind FundRow.net_income with _ | l
        · simp [hf, h2]
        · simp [hf, h2, if_pos (Or.inl hf0)]
      · rcases h1 : (window5 df).head?.bind FundRow.net_income with _ | f
        · simp [hl, h1]
        · simp [hl, h1, if_pos (Or.inr hl0)]
  · intro f l hf hl hlen hf0 hl0
    refine ⟨div_pos (by exact_mod_cast not_le.mp hl0)
              (by exact_mod_cast not_le.mp hf0), ?_⟩
    simp only [equity_growth_5y, if_neg hlen, hf, hl]
    rw [if_neg (not_or.mpr ⟨hf0, hl0⟩)]
  · intro f l hf hl hlen hf0 hl0
    refine ⟨div_pos (by exact_mod_cast not_le.mp hl0)
              (by exact_mod_cast not_le.mp hf0), ?_⟩
    simp only [profit_growth_5y, if_neg hlen, hf, hl]
    rw [if_neg (not_or.mpr ⟨hf0, hl0⟩)]

/-- Witness for C6: the empty series (short window), the two-row all-null
series (null endpoints), and a two-row positive series (power evaluated on a
positive base). -/
theorem growth_checks_insufficient_data_witness :
    ((window5 []).length < 2 ∧ (equity_growth_5y []).pass_flag = none) ∧
    ((window5 dfTwoNulls).head?.bind FundRow.shareholders_equity = none ∧
     (equity_growth_5y dfTwoNulls).value = none ∧
     (equity_growth_5y dfTwoNulls).pass_flag = none) ∧
    ((window5 dfTwoNulls).head?.bind FundRow.net_income = none ∧
     (profit_growth_5y dfTwoNulls).value = none ∧
     (profit_growth_5y dfTwoNulls).pass_flag = none) ∧
    ((window5 dfGrow).head?.bind FundRow.shareholders_equity = some 100 ∧
     ¬ (window5 dfGrow).length < 2 ∧ ¬ (100 : ℚ) ≤ 0 ∧
     0 < ((180 : ℚ) : ℝ) / ((100 : ℚ) : ℝ)) ∧
    ((window5 dfGrow).head?.bind FundRow.net_income = some 10 ∧
     0 < ((20 : ℚ) : ℝ) / ((10 : ℚ) : ℝ)) :=
  ⟨⟨by decide, ((growth_checks_insufficient_data []).1 (by decide)).2.1⟩,
   ⟨by decide,
    ((growth_checks_insufficient_data dfTwoNulls).2.1 (Or.inl (by decide))).1,
    ((growth_checks_insufficient_data dfTwoNulls).2.1 (Or.inl (by decide))).2⟩,
   ⟨by decide,
    ((growth_checks_insufficient_data dfTwoNulls).2.2.1 (Or.inl (by decide))).1,
    ((growth_checks_insufficient_data dfTwoNulls).2.2.1 (Or.inl (by decide))).2⟩,
   ⟨by decide, by decide, by decide,
    ((growth_checks_insufficient_data dfGrow).2.2.2.1 100 180 (by decide)
       (by decide) (by decide) (by decide) (by decide)).1⟩,
   ⟨by decide,
    ((growth_checks_insufficient_data dfGrow).2.2.2.2 10 20 (by decide)
       (by decide) (by decide) (by decide) (by decide)).1⟩⟩

-- ===== C5 : CAGR sign agrees with the endpoint comparison =====

/-- C5: on an ascending five-row series with strictly positive equity at both
endpoints, the equity-growth flag equals the boolean "last endpoint greater
than first", and the computed CAGR is positive (resp. negative) exactly when
the last endpoint exceeds (resp. falls short of) the first. -/
theorem equity_growth_endpoint_sign (df : List FundRow) (f l : ℚ)
    (hlen : df.length = 5)
    (hasc : List.Sorted yearLE df)
    (hf : df.head?.bind FundRow.shareholders_equity = some f)
    (hl : df.getLast?.bind FundRow.shareholders_equity = some l)
    (hf0 : 0 < f) (hl0 : 0 < l) :
    (equity_growth_5y df).pass_flag = some (decide (f < l)) ∧
    ∃ c : ℝ, (equity_growth_5y df).value = some c ∧
      (0 < c ↔ f < l) ∧ (c < 0 ↔ l < f) := by
  have hsort : sortByYear df = df := List.Sorted.insertionSort_eq hasc
  have hw : window5 df = df := by
    unfold window5 tail5
    rw [hsort, hlen]
    simp
  have hfpos : (0 : ℝ) < (f : ℝ) := by exact_mod_cast hf0
  have hlpos : (0 : ℝ) < (l : ℝ) := by exact_mod_cast hl0
  have hbase : (0 : ℝ) < (l : ℝ) / (f : ℝ) := div_pos hlpos hfpos
  have hexp : ((1 : ℝ) / (((5 : ℕ) : ℝ) - 1)) = 1/4 := by norm_num
  have hpos_iff :
      (0 : ℝ) < ((l : ℝ) / (f : ℝ)) ^ ((1 : ℝ) / (((5 : ℕ) : ℝ) - 1)) - 1 ↔
        f < l := by
    rw [sub_pos, hexp, Real.one_lt_rpow_iff_of_pos hbase]
    constructor
    · rintro (⟨h1, _⟩ | ⟨_, h2⟩)
      · exact_mod_cast (one_lt_div hfpos).mp h1
      · norm_num at h2
    · intro hfl
      exact Or.inl ⟨(one_lt_div hfpos).mpr (by exact_mod_cast hfl), by norm_num⟩
  have hneg_iff :
      ((l : ℝ) / (f : ℝ)) ^ ((1 : ℝ) / (((5 : ℕ) : ℝ) - 1)) - 1 < 0 ↔
        l < f := by
    rw [sub_neg, hexp, Real.rpow_lt_one_iff_of_pos hbase]
    constructor
    · rintro (⟨_, h2⟩ | ⟨h1, _⟩)
      · norm_num at h2
      · exact_mod_cast (div_lt_one hfpos).mp h1
    · intro hlf
      exact Or.inr ⟨(div_lt_one hfpos).mpr (by exact_mod_cast hlf), by norm_num⟩
  constructor
  · simp only [equity_growth_5y, hw, hlen, hf, hl]
    rw [if_neg (by norm_num), if_neg (not_or.mpr ⟨not_le.mpr hf0, not_le.mpr hl0⟩)]
    simp only []
    congr 1
    rw [decide_eq_decide]
    exact hpos_iff
  · simp only [equity_growth_5y, hw, hlen, hf, hl]
    rw [if_neg (by norm_num), if_neg (not_or.mpr ⟨not_le.mpr hf0, not_le.mpr hl0⟩)]
    exact ⟨_, rfl, hpos_iff, hneg_iff⟩

/-- Witness for C5 at the spec's example series: equity 100 → 180, flag true. -/
theorem equity_growth_endpoint_sign_witness :
    dfFive.length = 5 ∧ List.Sorted yearLE dfFive ∧
    dfFive.head?.bind FundRow.shareholders_equity = some 100 ∧
    dfFive.getLast?.bind FundRow.shareholders_equity = some 180 ∧
    (0 : ℚ) < 100 ∧ (0 : ℚ) < 180 ∧
    (equity_growth_5y dfFive).pass_flag = some (decide ((100 : ℚ) < 180)) :=
  ⟨by decide, by decide, by decide, by decide, by norm_num, by norm_num,
   (equity_growth_endpoint_sign dfFive 100 180 (by decide) (by decide)
      (by decide) (by decide) (by norm_num) (by norm_num)).1⟩

-- ===== C7 / C10 : store lemmas =====

/-- `dedup` of a non-empty constant list is the one-element list. -/
lemma dedup_const {α : Type} [DecidableEq α] {l : List α} {t : α}
    (h0 : l ≠ []) (h : ∀ x ∈ l, x = t) : l.dedup = [t] := by
  induction l with
  | nil => exact absurd rfl h0
  | cons a l ih =>
    have ha : a = t := h a (List.mem_cons_self a l)
    rcases eq_or_ne l [] with hnil | hne
    · subst hnil
      simp [ha]
    · have htl : l.dedup = [t] :=
        ih hne (fun x hx => h x (List.mem_cons_of_mem a hx))
      have hmem : a ∈ l := by
        obtain ⟨y, hy⟩ := List.exists_mem_of_ne_nil l hne
        have hyt : y = t := h y (List.mem_cons_of_mem a hy)
        rw [ha, ← hyt]
        exact hy
      rw [List.dedup_cons_of_mem hmem, htl]

/-- When every readable old row's year already occurs in the chunk, the merge
keeps exactly the chunk. -/
lemma mergeChunk_eq_chunk (fs : FileState) (chunk : List FundRow)
    (hold : ∀ r ∈ readOld fs, r.year ∈ chunk.map FundRow.year) :
    mergeChunk fs chunk = chunk := by
  cases fs with
  | absent => rfl
  | corrupt lost => rfl
  | table old =>
    by_cases h : old = []
    · simp [mergeChunk, h]
    · simp only [mergeChunk, if_neg h]
      have hfil :
          old.filter (fun r => ¬ r.year ∈ chunk.map FundRow.year) = [] := by
        rw [List.filter_eq_nil_iff]
        intro r hr
        simpa using hold r hr
      rw [hfil]
      rfl

/-- A single-ticker, non-empty, already-uppercased batch makes
`upsert_fundamentals` a single merge-and-write of that ticker's file. -/
lemma upsert_single_ticker (batch : List FundRow) (t : String) (s : Store)
    (ht : ∀ r ∈ batch, r.ticker = t) (hup : strUpper t = t)
    (hne : batch ≠ []) :
    upsert_fundamentals batch s =
      s.write (file_for t)
        (FileState.table (sortByYear (mergeChunk (s (file_for t)) batch))) := by
  unfold upsert_fundamentals
  rw [if_neg hne]
  have hrow : ∀ r ∈ batch,
      ({ r with ticker := strUpper r.ticker } : FundRow) = r := by
    intro r hr
    have hticker : r.ticker = t := ht r hr
    cases r
    simp_all
  have hout :
      batch.map (fun r => ({ r with ticker := strUpper r.ticker } : FundRow))
        = batch := by
    rw [List.map_congr_left hrow]
    exact List.map_id batch
  simp only [hout]
  have hkeys : groupKeys batch = [t] := by
    unfold groupKeys
    apply dedup_const
    · simpa using hne
    · intro x hx
      obtain ⟨r, hr, hxr⟩ := List.mem_map.mp hx
      rw [← hxr]
      exact ht r hr
  rw [hkeys]
  simp only [List.foldl_cons, List.foldl_nil]
  have hchunk : batch.filter (fun r => r.ticker = t) = batch := by
    rw [List.filter_eq_self]
    intro r hr
    simp [ht r hr]
  rw [hchunk]

/-- Loading the ticker just written returns the written rows. -/
lemma load_write_same (s : Store) (t : String) (rows : List FundRow) :
    load_fundamentals (s.write (file_for t) (FileState.table rows)) t
      = rows := by
  unfold load_fundamentals Store.write
  simp

-- ===== C7 : upsert/load round trip =====

/-- C7: upserting a single-ticker batch with unique years into a store whose
existing readable rows for that ticker (none, for a fresh or corrupt file)
all have years from the batch, then loading the ticker, returns exactly the
batch sorted by year — a permutation of the batch, i.e. the same year-keyed
row content. -/
theorem upsert_load_round_trip (batch : List FundRow) (t : String) (s : Store)
    (ht : ∀ r ∈ batch, r.ticker = t)
    (hup : strUpper t = t)
    (hyears : (batch.map FundRow.year).Nodup)
    (hold : ∀ r ∈ readOld (s (file_for t)), r.year ∈ batch.map FundRow.year) :
    load_fundamentals (upsert_fundamentals batch s) t = sortByYear batch ∧
    (load_fundamentals (upsert_fundamentals batch s) t).Perm batch := by
  rcases eq_or_ne batch [] with hnil | hne
  · subst hnil
    have hro : readOld (s (file_for t)) = [] := by
      rcases hcase : readOld (s (file_for t)) with _ | ⟨r, rest⟩
      · rfl
      · exfalso
        have := hold r (by rw [hcase]; exact List.mem_cons_self r rest)
        simp at this
    have hupsert : upsert_fundamentals [] s = s := by
      unfold upsert_fundamentals
      simp
    rw [hupsert, load_eq_readOld, hro]
    exact ⟨rfl, List.Perm.refl []⟩
  · have hm : mergeChunk (s (file_for t)) batch = batch :=
      mergeChunk_eq_chunk _ _ hold
    rw [upsert_single_ticker batch t s ht hup hne, hm, load_write_same]
    exact ⟨rfl, List.perm_insertionSort yearLE batch⟩

/-- Witness for C7: one ACME row into the empty store. -/
theorem upsert_load_round_trip_witness :
    (∀ r ∈ [rowACME], r.ticker = "ACME") ∧
    strUpper "ACME" = "ACME" ∧
    ([rowACME].map FundRow.year).Nodup ∧
    (∀ r ∈ readOld (emptyStore (file_for "ACME")),
       r.year ∈ [rowACME].map FundRow.year) ∧
    load_fundamentals (upsert_fundamentals [rowACME] emptyStore) "ACME"
      = sortByYear [rowACME] :=
  ⟨by decide, by decide, by decide, by decide,
   (upsert_load_round_trip [rowACME] "ACME" emptyStore (by decide) (by decide)
      (by decide) (by decide)).1⟩

-- ===== C10 : corrupt cache file is overwritten by the batch =====

/-- C10: if the ticker's cache file exists but is unreadable at upsert time,
the read error is swallowed (upsert is a total function returning a store),
the file is rewritten as exactly the incoming batch sorted by year, and any
year of the lost content that is not in the batch is absent from a subsequent
load. -/
theorem upsert_corrupt_discards (batch : List FundRow) (t : String) (s : Store)
    (lost : List FundRow)
    (hcor : s (file_for t) = FileState.corrupt lost)
    (ht : ∀ r ∈ batch, r.ticker = t)
    (hup : strUpper t = t)
    (hne : batch ≠ []) :
    (upsert_fundamentals batch s) (file_for t)
        = FileState.table (sortByYear batch) ∧
    load_fundamentals (upsert_fundamentals batch s) t = sortByYear batch ∧
    ∀ r ∈ lost, ¬ r.year ∈ batch.map FundRow.year →
      ¬ r.year ∈
        (load_fundamentals (upsert_fundamentals batch s) t).map FundRow.year := by
  have hm : mergeChunk (s (file_for t)) batch = batch := by
    rw [hcor]
    rfl
  rw [upsert_single_ticker batch t s ht hup hne, hm]
  refine ⟨?_, load_write_same s t (sortByYear batch), ?_⟩
  · unfold Store.write
    simp
  · intro r hr hnot
    rw [load_write_same]
    intro hmem
    apply hnot
    have hperm := (List.perm_insertionSort yearLE batch).map FundRow.year
    exact hperm.mem_iff.mp hmem

/-- Witness for C10: a fresh ACME batch over a corrupt file that once held a
1999 row; the 1999 year is discarded. -/
theorem upsert_corrupt_discards_witness :
    corruptStore (file_for "ACME") = FileState.corrupt [rowOld] ∧
    (∀ r ∈ [rowACME], r.ticker = "ACME") ∧
    strUpper "ACME" = "ACME" ∧ ([rowACME] : List FundRow) ≠ [] ∧
    (upsert_fundamentals [rowACME] corruptStore) (file_for "ACME")
      = FileState.table (sortByYear [rowACME]) :=
  ⟨rfl, by decide, by decide, by decide,
   (upsert_corrupt_discards [rowACME] "ACME" corruptStore [rowOld] rfl
      (by decide) (by decide) (by decide)).1⟩

-- ===== C2 : the resolver performs no write-through =====

/-- C2 counterexample: ticker "ACME", no uploaded rows, empty sample slice,
empty store, non-empty remote series.  The resolver returns the remote series
yet leaves the store untouched, so the immediately subsequent load of the
ticker from the store is empty — not non-empty as the claim states. -/
theorem resolver_write_through_cex :
    (fundamentals_for_ticker "ACME" none [] (some [rowACME]) emptyStore).1
        = some [rowACME] ∧
    (fundamentals_for_ticker "ACME" none [] (some [rowACME]) emptyStore).2
        = emptyStore ∧
    load_fundamentals
        (fundamentals_for_ticker "ACME" none [] (some [rowACME]) emptyStore).2
        "ACME" = [] :=
  ⟨rfl, rfl, rfl⟩

/-- C2 (amended): when neither the uploaded override nor the bundled sample
CSV has rows for the ticker, the resolver returns the remote provider's
result as-is and performs no store operation: the store comes back unchanged,
so a subsequent load of any ticker returns exactly what it returned before —
in particular the ticker's series stays empty when the store was empty. -/
theorem resolver_returns_remote_without_write (ticker : String)
    (uploaded : Option (List FundRow)) (sample : List FundRow)
    (remote : Option (List FundRow)) (s : Store)
    (hupl : ∀ up, uploaded = some up → tickerRows (strUpper ticker) up = [])
    (hsample : tickerRows (strUpper ticker) sample = []) :
    fundamentals_for_ticker ticker uploaded sample remote s = (remote, s) ∧
    ∀ t2, load_fundamentals
        (fundamentals_for_ticker ticker uploaded sample remote s).2 t2
      = load_fundamentals s t2 := by
  have hmain : fundamentals_for_ticker ticker uploaded sample remote s
      = (remote, s) := by
    cases uploaded with
    | none =>
      simp only [fundamentals_for_ticker, hsample]
      rfl
    | some up =>
      simp only [fundamentals_for_ticker, hupl up rfl, hsample]
      rfl
  exact ⟨hmain, fun t2 => by rw [hmain]⟩

/-- Witness for C2 (amended) at the concrete ACME instance. -/
theorem resolver_returns_remote_without_write_witness :
    tickerRows (strUpper "ACME") [] = [] ∧
    fundamentals_for_ticker "ACME" none [] (some [rowACME]) emptyStore
      = (some [rowACME], emptyStore) :=
  ⟨rfl, (resolver_returns_remote_without_write "ACME" none [] (some [rowACME])
     emptyStore (fun _ h => nomatch h) rfl).1⟩

-- ===== C8 : retry loop of _get_json =====

/-- C8: with the default budget (retries=2, backoff=0.6) the helper makes at
most 3 attempts; if the first success is attempt i (all earlier attempts
failing), it returns that attempt's JSON after sleeping 0.6·2^k for each
failed attempt k < i; and when all three attempts fail it re-raises the final
attempt's error after exactly 3 attempts and 2 sleeps. -/
theorem get_json_retry_spec {E J : Type} (results : Nat → Except E J) :
    (getJsonDefault results).2.2 ≤ 3 ∧
    (∀ i : Nat, i ≤ 2 →
      (∀ k, k < i → ∃ e, results k = Except.error e) →
      ∀ j, results i = Except.ok j →
        (getJsonDefault results).1 = Except.ok j ∧
        (getJsonDefault results).2.1
          = (List.range i).map (fun k => (3/5 : ℚ) * 2 ^ k) ∧
        (getJsonDefault results).2.2 = i + 1) ∧
    (∀ e0 e1 e2, results 0 = Except.error e0 → results 1 = Except.error e1 →
      results 2 = Except.error e2 →
      (getJsonDefault results).1 = Except.error e2 ∧
      (getJsonDefault results).2.1 = [(3/5 : ℚ) * 2 ^ 0, (3/5 : ℚ) * 2 ^ 1] ∧
      (getJsonDefault results).2.2 = 3) := by
  refine ⟨?_, ?_, ?_⟩
  · unfold getJsonDefault get_json
    cases h0 : results 0 with
    | ok j => simp [tryAttempts, h0]
    | error e0 =>
      cases h1 : results 1 with
      | ok j => simp [tryAttempts, h0, h1]
      | error e1 =>
        cases h2 : results 2 with
        | ok j => simp [tryAttempts, h0, h1, h2]
        | error e2 => simp [tryAttempts, h0, h1, h2]
  · intro i hi hprev j hok
    interval_cases i
    · simp [getJsonDefault, get_json, tryAttempts, hok]
    · obtain ⟨e0, h0⟩ := hprev 0 (by norm_num)
      simp [getJsonDefault, get_json, tryAttempts, h0, hok, List.range_succ]
    · obtain ⟨e0, h0⟩ := hprev 0 (by norm_num)
      obtain ⟨e1, h1⟩ := hprev 1 (by norm_num)
      refine ⟨?_, ?_, ?_⟩ <;>
        simp [getJsonDefault, get_json, tryAttempts, h0, h1, hok,
              List.range_succ]
  · intro e0 e1 e2 h0 h1 h2
    refine ⟨?_, ?_, ?_⟩ <;>
      simp [getJsonDefault, get_json, tryAttempts, h0, h1, h2]

/-- Witness for C8: attempt 0 fails and attempt 1 succeeds with JSON 7, so
the helper returns 7 after exactly 2 attempts. -/
theorem get_json_retry_spec_witness :
    (1 : Nat) ≤ 2 ∧ resultsW 1 = Except.ok 7 ∧
    (getJsonDefault resultsW).1 = Except.ok 7 ∧
    (getJsonDefault resultsW).2.2 = 2 := by
  have h := (get_json_retry_spec resultsW).2.1 1 (by norm_num)
    (fun k hk => ⟨(), by
      have hk0 : k = 0 := Nat.lt_one_iff.mp hk
      rw [hk0]
      rfl⟩) 7 rfl
  exact ⟨by norm_num, rfl, h.1, h.2.2⟩
